import Mathlib

/-!
Verification of the backend request-processing pipeline of the chat server
(`server.mjs`, the ESM variant in the repository; the CommonJS variant is the
same pipeline modulo minor differences noted where relevant).

The shallow embedding below translates, from the source:
- `extractText` (response normalizer, lines 13-27),
- the multer upload configuration (`fileFilter`, `limits`, lines 66-89) and the
  multer error-handling middleware (lines 275-290),
- the `POST /chat` handler (lines 107-235): the missing-content check, the
  API-key check, the per-file part-assembly loop with its per-file `try/catch`,
  the `cleanup` helper, the empty-parts check, the single model invocation, the
  success response, and the `catch`-block error classifier.

Side effects (file reads, `fs.unlink` attempts, `console.error` per-file
logging, the model call) are made observable as an ordered trace of `Event`s;
the remote model's outcome and the transient-storage contents are inputs
(`ModelOutcome`, `Env.fs`).  String helpers (`isPreOf`, `includesStr`,
`startsWithStr`, `base64Encode`) are structural-recursion models of
`String.prototype.startsWith`, `String.prototype.includes` and Node's base64
encoding, so that every definition evaluates inside the kernel.
-/

/-- Model of `String.prototype.startsWith` / list-level helper: is the first
list an initial segment of the second? -/
def isPreOf : List Char → List Char → Bool
  | [], _ => true
  | _ :: _, [] => false
  | a :: as, b :: bs => a == b && isPreOf as bs

/-- Helper for `includesStr`: does `l` contain `sub` as a contiguous
sublist? -/
def containsSub (sub : List Char) : List Char → Bool
  | [] => isPreOf sub []
  | c :: rest => isPreOf sub (c :: rest) || containsSub sub rest

/-- Model of JavaScript `s.includes(sub)` (substring test). -/
def includesStr (s sub : String) : Bool :=
  containsSub sub.data s.data

/-- Model of JavaScript `s.startsWith(pre)`. -/
def startsWithStr (s pre : String) : Bool :=
  isPreOf pre.data s.data

/-- The standard base64 alphabet. -/
def base64Table : List Char :=
  "ABCDEFGHIJKLMNOPQRSTUVWXYZabcdefghijklmnopqrstuvwxyz0123456789+/".data

/-- The base64 digit for a 6-bit value. -/
def b64c (n : Nat) : Char := base64Table.getD n 'A'

/-- Base64-encode a byte list, three bytes to four digits, `=`-padded
(model of Node `Buffer.prototype.toString("base64")`). -/
def base64Chunks : List Nat → List Char
  | [] => []
  | [a] => [b64c (a / 4), b64c (a % 4 * 16), '=', '=']
  | [a, b] => [b64c (a / 4), b64c (a % 4 * 16 + b / 16), b64c (b % 16 * 4), '=']
  | a :: b :: c :: rest =>
      b64c (a / 4) :: b64c (a % 4 * 16 + b / 16) :: b64c (b % 16 * 4 + c / 64) ::
        b64c (c % 64) :: base64Chunks rest

/-- Base64 encoding of a file's content (the content is carried as a `String`;
its UTF-8 bytes stand for the file's bytes). -/
def base64Encode (s : String) : String :=
  String.mk (base64Chunks (s.toUTF8.data.toList.map UInt8.toNat))

/-- One part of a candidate's content in a model response (`p.text` may or may
not be a string). -/
structure RespPart where
  text : Option String
deriving Repr, DecidableEq

/-- The `content` object of a candidate (`content.parts` may or may not be an
array). -/
structure RespContent where
  parts : Option (List RespPart)
deriving Repr, DecidableEq

/-- One candidate of a model response. -/
structure Candidate where
  content : Option RespContent
deriving Repr, DecidableEq

/-- Model of the duck-typed response returned by the remote model client:
`textFn = some t` models a `.text()` method returning `t`; `candidates`
models the optional `candidates` array. -/
structure ModelResponse where
  textFn : Option String
  candidates : Option (List Candidate)
deriving Repr, DecidableEq

/-- Model of `JSON.stringify(genaiResponse)`: a full structural serialization
of the response value. -/
def stringifyResponse (r : ModelResponse) : String :=
  toString (repr r)

/-- `genaiResponse?.candidates?.[0]?.content?.parts` — the optional-chaining
path taken by `extractText`'s fallback. -/
def firstCandidateParts (r : ModelResponse) : Option (List RespPart) :=
  match r.candidates with
  | none => none
  | some cs =>
    match cs.head? with
    | none => none
    | some c =>
      match c.content with
      | none => none
      | some ct => ct.parts

/-- `extractText` (source lines 13-27): prefer the `.text()` method; else
stitch together the text parts of the first candidate; else stringify. -/
def extractText (r : ModelResponse) : String :=
  match r.textFn with
  | some t => t
  | none =>
    match firstCandidateParts r with
    | some parts =>
        String.join (parts.map fun p =>
          match p.text with
          | some s => s
          | none => "")
    | none => stringifyResponse r

/-- A file as it arrives in the multipart body, before multer admits it:
original name, declared media type, size in bytes, and the transient storage
path multer would assign. -/
structure RawFile where
  originalname : String
  mimetype : String
  size : Nat
  path : String
deriving Repr, DecidableEq

/-- A file admitted by multer, as seen by the `/chat` handler (`req.files`
element): `originalname`, `mimetype`, and the transient storage `path`. -/
structure UploadedFile where
  originalname : String
  mimetype : String
  path : String
deriving Repr, DecidableEq

/-- The `allowed` set of the multer `fileFilter` (source lines 70-81). -/
def allowedTypes : List String :=
  ["image/jpeg", "image/jpg", "image/png", "image/gif", "image/webp",
   "text/plain", "text/markdown", "application/pdf", "application/msword",
   "application/vnd.openxmlformats-officedocument.wordprocessingml.document"]

/-- Outcome of the multer middleware for a request: either the admitted file
list, or the first error it raised.  `limitFileSize` / `limitFileCount` are
`MulterError`s (`LIMIT_FILE_SIZE` / `LIMIT_FILE_COUNT`); `filterError` is the
plain `Error` thrown by the `fileFilter` for a disallowed media type. -/
inductive MulterOutcome where
  | ok (files : List UploadedFile)
  | limitFileCount
  | limitFileSize
  | filterError (mimetype : String)
deriving Repr, DecidableEq

/-- The multer middleware (`upload.array("files", 10)` with
`limits: \x7b fileSize: 10 * 1024 * 1024, files: 10 \x7d` and the
`fileFilter`, source lines 66-89).  Files are processed in order; the file
after the tenth triggers `LIMIT_FILE_COUNT`; for each file the `fileFilter`
runs before the byte stream can exceed the size limit; the first error aborts
the request. -/
def multerProcess : Nat → List RawFile → MulterOutcome
  | _, [] => .ok []
  | n, f :: rest =>
    if 10 ≤ n then .limitFileCount
    else if allowedTypes.contains f.mimetype then
      if 10485760 < f.size then .limitFileSize
      else
        match multerProcess (n + 1) rest with
        | .ok files =>
            .ok ({ originalname := f.originalname, mimetype := f.mimetype,
                   path := f.path } :: files)
        | e => e
    else .filterError f.mimetype

/-- One part of the user message sent to the model (`userParts` element):
`text` models `\x7b text \x7d` objects, `inlineData` models
`\x7b inlineData: \x7b data, mimeType \x7d \x7d` objects. -/
inductive ContentPart where
  | text (s : String)
  | inlineData (data : String) (mimeType : String)
deriving Repr, DecidableEq

/-- An observable side effect of the `/chat` handler, in order of occurrence:
a file read (`fs.readFile`), a swallowed per-file error log
(`console.error("Error processing file:", ...)`), an `fs.unlink` attempt, or
the single `ai.models.generateContent` call with its parts. -/
inductive Event where
  | read (path : String)
  | logError (originalname : String)
  | unlink (path : String)
  | invoke (parts : List ContentPart)
deriving Repr, DecidableEq

/-- The parts contributed by one uploaded file in the assembly loop (source
lines 141-184).  `fs` is the transient storage: `fs path = none` models a
failing read (the per-file `try/catch` then emits nothing for this file). -/
def processFile (prompt : String) (fs : String → Option String)
    (file : UploadedFile) : List ContentPart :=
  if startsWithStr file.mimetype "image/" then
    match fs file.path with
    | none => []
    | some content =>
        ContentPart.inlineData (base64Encode content) file.mimetype ::
          (if prompt = "" then
            [ContentPart.text
              "Please analyze this image and describe what you see in detail."]
          else [])
  else if file.mimetype = "text/plain" ∨ file.mimetype = "text/markdown" then
    match fs file.path with
    | none => []
    | some textContent =>
        ContentPart.text
            ("Content of file \"" ++ file.originalname ++ "\":\n" ++ textContent) ::
          (if prompt = "" then
            [ContentPart.text "Please summarize the content of this file."]
          else [])
  else if file.mimetype = "application/pdf" ∨
      file.mimetype = "application/msword" ∨
      file.mimetype =
        "application/vnd.openxmlformats-officedocument.wordprocessingml.document" then
    [ContentPart.text
      ("I received a " ++
        (if includesStr file.mimetype "pdf" then "PDF" else "Word") ++
        " document named \"" ++ file.originalname ++
        "\". For better analysis, please convert this document to plain text or paste the content directly.")]
  else []

/-- The read/log events produced while processing one file: the read-requiring
branches (image, plain text, markdown) attempt a read; a failing read is
caught and logged (source line 181). -/
def processFileEvents (fs : String → Option String)
    (file : UploadedFile) : List Event :=
  if startsWithStr file.mimetype "image/" ∨ file.mimetype = "text/plain" ∨
      file.mimetype = "text/markdown" then
    match fs file.path with
    | none => [Event.read file.path, Event.logError file.originalname]
    | some _ => [Event.read file.path]
  else []

/-- The `for (const file of files)` assembly loop, parts only. -/
def partsLoop (prompt : String) (fs : String → Option String) :
    List UploadedFile → List ContentPart
  | [] => []
  | f :: rest => processFile prompt fs f ++ partsLoop prompt fs rest

/-- The events of the assembly loop, in order. -/
def readTrace (fs : String → Option String) : List UploadedFile → List Event
  | [] => []
  | f :: rest => processFileEvents fs f ++ readTrace fs rest

/-- The full `userParts` array (source lines 138-184): the prompt first when
truthy (non-empty), then each file's contribution in upload order. -/
def userPartsFor (prompt : String) (fs : String → Option String)
    (files : List UploadedFile) : List ContentPart :=
  (if prompt = "" then [] else [ContentPart.text prompt]) ++
    partsLoop prompt fs files

/-- The `cleanup` helper of the handler (source lines 109-119): one `unlink`
attempt per uploaded file, every failure swallowed. -/
def cleanup (files : List UploadedFile) : List Event :=
  files.map fun f => Event.unlink f.path

/-- The HTTP response sent by the handler: status plus the JSON fields the
source can set (`error`, `output`, `filesProcessed`, `details`). -/
structure HttpResponse where
  status : Nat
  error : Option String := none
  output : Option String := none
  filesProcessed : Option Nat := none
  details : Option String := none
deriving Repr, DecidableEq

/-- Outcome of the single `ai.models.generateContent` call: a response value,
or a rejection carrying the error's `message` and `stack`. -/
inductive ModelOutcome where
  | ok (resp : ModelResponse)
  | fail (msg : String) (stack : String)
deriving Repr, DecidableEq

/-- Ambient server state the handler consults: the configured API key
(`"" = not configured`), `NODE_ENV`, and the transient storage contents. -/
structure Env where
  apiKey : String
  nodeEnv : String
  fs : String → Option String

/-- The parsed multipart body as the handler sees it: `req.body.prompt`
(`"" = absent or empty, both falsy`) and `req.files`. -/
structure ChatRequest where
  prompt : String
  files : List UploadedFile

/-- The `catch` block of the `/chat` handler (source lines 214-233): classify
the failure by its message content, in source order. -/
def classifyError (nodeEnv msg stack : String) : HttpResponse :=
  if includesStr msg "API key" || includesStr msg "UNAUTHENTICATED" then
    { status := 500, error := some "Invalid API key configuration" }
  else if includesStr msg "SAFETY" then
    { status := 400, error := some "Content was blocked by safety filters" }
  else if includesStr msg "QUOTA" || includesStr msg "RESOURCE_EXHAUSTED" then
    { status := 429, error := some "API quota exceeded. Please try again later." }
  else
    { status := 500, error := some msg,
      details := if nodeEnv = "development" then some stack else none }

/-- The `POST /chat` handler body (source lines 107-235).  Returns the
response and the ordered event trace.  The `catch` block is reachable in this
model only through a failing model invocation (the only unrecovered throw
after the early returns); on that path the line-187 `cleanup` has already run
and the `catch` block attempts a second best-effort unlink round (source
lines 206-212). -/
def chatHandler (env : Env) (m : ModelOutcome) (req : ChatRequest) :
    HttpResponse × List Event :=
  let files := req.files
  if req.prompt = "" ∧ files.length = 0 then
    ({ status := 400, error := some "Please provide a prompt or upload files" },
     cleanup files)
  else if env.apiKey = "" then
    ({ status := 500, error := some "Gemini API key not configured" },
     cleanup files)
  else
    let userParts := userPartsFor req.prompt env.fs files
    let preTrace := readTrace env.fs files ++ cleanup files
    if userParts.length = 0 then
      ({ status := 400, error := some "No valid content to process" }, preTrace)
    else
      match m with
      | .ok r =>
          ({ status := 200, output := some (extractText r),
             filesProcessed := some files.length },
           preTrace ++ [Event.invoke userParts])
      | .fail msg stack =>
          (classifyError env.nodeEnv msg stack,
           preTrace ++ [Event.invoke userParts] ++ cleanup files)

/-- The route stack for `POST /chat`: the multer middleware, then the handler
on success, or the error-handling middleware (source lines 275-290) on a
multer/filter error.  The `fileFilter`'s plain `Error` is not a `MulterError`,
so it falls through to the generic 500 branch of that middleware. -/
def handleChatRequest (env : Env) (m : ModelOutcome) (prompt : String)
    (raw : List RawFile) : HttpResponse × List Event :=
  match multerProcess 0 raw with
  | .ok files => chatHandler env m { prompt := prompt, files := files }
  | .limitFileSize =>
      ({ status := 400, error := some "File too large. Maximum size is 10MB." }, [])
  | .limitFileCount =>
      ({ status := 400, error := some "Too many files. Maximum is 10 files." }, [])
  | .filterError mt =>
      ({ status := 500,
         error := some ("File type " ++ mt ++ " is not supported") }, [])

/-- Did the request reach the `generateContent` call?  Mirrors the handler's
guard conditions in order. -/
def reachesInvoke (env : Env) (req : ChatRequest) : Bool :=
  if req.prompt = "" ∧ req.files.length = 0 then false
  else if env.apiKey = "" then false
  else if (userPartsFor req.prompt env.fs req.files).length = 0 then false
  else true

/-- Did the model invocation fail? -/
def isFail : ModelOutcome → Bool
  | .ok _ => false
  | .fail _ _ => true

/-! ### Helper lemmas -/

lemma partsLoop_append (p : String) (fs : String → Option String)
    (xs ys : List UploadedFile) :
    partsLoop p fs (xs ++ ys) = partsLoop p fs xs ++ partsLoop p fs ys := by
  induction xs with
  | nil => simp [partsLoop]
  | cons x xs ih => simp [partsLoop, ih]

lemma join_cons (s : String) (l : List String) :
    String.join (s :: l) = s ++ String.join l := by
  rw [String.join_eq, String.join_eq]
  rfl

lemma join_textParts (ps : List RespPart) :
    String.join (ps.map fun p =>
      match p.text with
      | some s => s
      | none => "") =
    String.join (ps.filterMap RespPart.text) := by
  induction ps with
  | nil => rfl
  | cons p ps ih =>
    cases hp : p.text with
    | none => simp [join_cons, List.filterMap_cons, hp, ih, String.empty_append]
    | some s => simp [join_cons, List.filterMap_cons, hp, ih]

lemma invoke_notin_processFileEvents (fs : String → Option String)
    (f : UploadedFile) (ps : List ContentPart) :
    Event.invoke ps ∉ processFileEvents fs f := by
  unfold processFileEvents
  split
  · split <;> simp
  · simp

lemma invoke_notin_readTrace (fs : String → Option String)
    (files : List UploadedFile) (ps : List ContentPart) :
    Event.invoke ps ∉ readTrace fs files := by
  induction files with
  | nil => simp [readTrace]
  | cons f rest ih =>
    simp only [readTrace, List.mem_append]
    rintro (h | h)
    · exact invoke_notin_processFileEvents fs f ps h
    · exact ih h

lemma invoke_notin_cleanup (files : List UploadedFile) (ps : List ContentPart) :
    Event.invoke ps ∉ cleanup files := by
  simp [cleanup]

lemma unlink_notin_processFileEvents (fs : String → Option String)
    (f : UploadedFile) (p : String) :
    Event.unlink p ∉ processFileEvents fs f := by
  unfold processFileEvents
  split
  · split <;> simp
  · simp

lemma count_unlink_readTrace (fs : String → Option String)
    (files : List UploadedFile) (p : String) :
    (readTrace fs files).count (Event.unlink p) = 0 := by
  induction files with
  | nil => simp [readTrace]
  | cons f rest ih =>
    simp [readTrace, List.count_append, ih,
      List.count_eq_zero.mpr (unlink_notin_processFileEvents fs f p)]

lemma count_unlink_cleanup (files : List UploadedFile) (f : UploadedFile)
    (hnd : (files.map UploadedFile.path).Nodup) (hf : f ∈ files) :
    (cleanup files).count (Event.unlink f.path) = 1 := by
  have h1 : cleanup files = (files.map UploadedFile.path).map Event.unlink := by
    simp [cleanup, List.map_map, Function.comp]
  rw [h1,
    List.count_map_of_injective _ Event.unlink (fun a b h => by simpa using h) f.path,
    List.count_eq_one_of_mem hnd (List.mem_map_of_mem _ hf)]

lemma classify_status (nodeEnv msg stack : String) :
    (classifyError nodeEnv msg stack).status ≠ 200 := by
  unfold classifyError
  split_ifs <;> simp

/-! ### Claim theorems -/

/-- C3: the response normalizer always returns a string, trying in order:
(1) the text-producing capability when supported; (2) the concatenation, in
order, of the text of every text-bearing part of the first candidate's
content; (3) a full structural serialization of the response. -/
theorem extractText_ordered_fallback (r : ModelResponse) :
    (∀ t, r.textFn = some t → extractText r = t) ∧
    (∀ ps, r.textFn = none → firstCandidateParts r = some ps →
      extractText r = String.join (ps.filterMap RespPart.text)) ∧
    (r.textFn = none → firstCandidateParts r = none →
      extractText r = stringifyResponse r) := by
  refine ⟨fun t ht => ?_, fun ps h1 h2 => ?_, fun h1 h2 => ?_⟩
  · simp [extractText, ht]
  · simp [extractText, h1, h2, join_textParts]
  · simp [extractText, h1, h2]

/-- Concrete part list for the C3 witness. -/
def respParts3 : List RespPart := [⟨some "a"⟩, ⟨none⟩, ⟨some "b"⟩]

/-- Concrete response without a `.text()` method but with candidate parts. -/
def respWithParts : ModelResponse :=
  { textFn := none, candidates := some [⟨some ⟨some respParts3⟩⟩] }

/-- Witness for C3: one concrete response per fallback strategy. -/
theorem extractText_ordered_fallback_witness :
    extractText { textFn := some "T", candidates := none } = "T" ∧
    extractText respWithParts = String.join (respParts3.filterMap RespPart.text) ∧
    extractText { textFn := none, candidates := none } =
      stringifyResponse { textFn := none, candidates := none } :=
  ⟨(extractText_ordered_fallback _).1 "T" rfl,
   (extractText_ordered_fallback _).2.1 _ rfl rfl,
   (extractText_ordered_fallback _).2.2 rfl rfl⟩

/-- C2: with a non-empty prompt the assembled sequence starts with the
prompt's text part followed by the files' contributions in upload order; in
particular prompt `"hi"` with two readable plain-text attachments `A` then
`B` assembles to exactly the three text parts, each file part carrying the
`Content of file "<name>":` header. -/
theorem userParts_order (p : String) (hp : p ≠ "") (fs : String → Option String)
    (files : List UploadedFile) (nA nB pA pB cA cB : String)
    (hA : fs pA = some cA) (hB : fs pB = some cB) :
    userPartsFor p fs files = ContentPart.text p :: partsLoop p fs files ∧
    userPartsFor "hi" fs
        [{ originalname := nA, mimetype := "text/plain", path := pA },
         { originalname := nB, mimetype := "text/plain", path := pB }] =
      [ContentPart.text "hi",
       ContentPart.text ("Content of file \"" ++ nA ++ "\":\n" ++ cA),
       ContentPart.text ("Content of file \"" ++ nB ++ "\":\n" ++ cB)] := by
  constructor
  · simp [userPartsFor, hp]
  · simp +decide [userPartsFor, partsLoop, processFile, hA, hB]

/-- Witness for C2: concrete storage and attachments. -/
theorem userParts_order_witness :
    userPartsFor "hi"
        (fun pth => if pth = "u/a" then some "alpha"
          else if pth = "u/b" then some "beta" else none)
        [{ originalname := "A.txt", mimetype := "text/plain", path := "u/a" },
         { originalname := "B.txt", mimetype := "text/plain", path := "u/b" }] =
      [ContentPart.text "hi",
       ContentPart.text ("Content of file \"" ++ "A.txt" ++ "\":\n" ++ "alpha"),
       ContentPart.text ("Content of file \"" ++ "B.txt" ++ "\":\n" ++ "beta")] :=
  (userParts_order "hi" (by decide) _ [] "A.txt" "B.txt" "u/a" "u/b"
    "alpha" "beta" (by decide) (by decide)).2

/-- C4: an attachment whose read fails contributes no part, the failure is
logged (and the read attempted), and the assembled sequence is exactly the
one obtained from the remaining attachments in order — the failure is
isolated. -/
theorem failedRead_isolated (p : String) (fs : String → Option String)
    (xs ys : List UploadedFile) (f : UploadedFile)
    (hread : startsWithStr f.mimetype "image/" = true ∨
      f.mimetype = "text/plain" ∨ f.mimetype = "text/markdown")
    (hfail : fs f.path = none) :
    processFile p fs f = [] ∧
    processFileEvents fs f = [Event.read f.path, Event.logError f.originalname] ∧
    userPartsFor p fs (xs ++ f :: ys) = userPartsFor p fs (xs ++ ys) := by
  have hparts : processFile p fs f = [] := by
    rcases hread with h | h | h
    · simp +decide [processFile, h, hfail]
    · simp +decide [processFile, h, hfail]
    · simp +decide [processFile, h, hfail]
  refine ⟨hparts, ?_, ?_⟩
  · have hcond : startsWithStr f.mimetype "image/" = true ∨
        f.mimetype = "text/plain" ∨ f.mimetype = "text/markdown" := hread
    unfold processFileEvents
    rw [if_pos hcond, hfail]
  · simp [userPartsFor, partsLoop_append, partsLoop, hparts]

/-- Witness for C4: a failing plain-text read between two readable files. -/
theorem failedRead_isolated_witness :
    processFile "hi" (fun pth => if pth = "u/bad" then none else some "ok")
      { originalname := "bad.txt", mimetype := "text/plain", path := "u/bad" } = [] ∧
    processFileEvents (fun pth => if pth = "u/bad" then none else some "ok")
      { originalname := "bad.txt", mimetype := "text/plain", path := "u/bad" } =
      [Event.read "u/bad", Event.logError "bad.txt"] ∧
    userPartsFor "hi" (fun pth => if pth = "u/bad" then none else some "ok")
        ([{ originalname := "a.txt", mimetype := "text/plain", path := "u/a" }] ++
          { originalname := "bad.txt", mimetype := "text/plain", path := "u/bad" } ::
          [{ originalname := "b.txt", mimetype := "text/plain", path := "u/b" }]) =
      userPartsFor "hi" (fun pth => if pth = "u/bad" then none else some "ok")
        ([{ originalname := "a.txt", mimetype := "text/plain", path := "u/a" }] ++
         [{ originalname := "b.txt", mimetype := "text/plain", path := "u/b" }]) :=
  failedRead_isolated "hi" _ _ _ _ (Or.inr (Or.inl rfl)) (by decide)

/-- C6: a request with empty/absent prompt and zero attachments is rejected
with the 400 missing-content error; the empty trace shows that no attachment
is read and the remote model is not invoked. -/
theorem missingContent_rejected (env : Env) (m : ModelOutcome)
    (req : ChatRequest) (h1 : req.prompt = "") (h2 : req.files = []) :
    chatHandler env m req =
      ({ status := 400, error := some "Please provide a prompt or upload files" },
       []) := by
  simp [chatHandler, h1, h2, cleanup]

/-- Witness for C6. -/
theorem missingContent_rejected_witness :
    chatHandler { apiKey := "k", nodeEnv := "production", fs := fun _ => none }
      (ModelOutcome.ok { textFn := some "ans", candidates := none })
      { prompt := "", files := [] } =
      ({ status := 400, error := some "Please provide a prompt or upload files" },
       []) :=
  missingContent_rejected _ _ _ rfl rfl

/-- C7: a request that passes the missing-content check (and the API-key
check, so that assembly runs) but assembles an empty part sequence is
rejected with the distinct 400 "No valid content to process" error; the trace
is exactly the assembly's read attempts followed by cleanup — assembly was
attempted, and the model is never invoked. -/
theorem noValidContent_rejected (env : Env) (m : ModelOutcome)
    (req : ChatRequest) (h1 : ¬(req.prompt = "" ∧ req.files.length = 0))
    (h2 : env.apiKey ≠ "")
    (h3 : (userPartsFor req.prompt env.fs req.files).length = 0) :
    chatHandler env m req =
      ({ status := 400, error := some "No valid content to process" },
       readTrace env.fs req.files ++ cleanup req.files) ∧
    ∀ ps, Event.invoke ps ∉ (chatHandler env m req).snd := by
  have h1' : ¬(req.prompt = "" ∧ req.files = []) := by simpa using h1
  have hmain : chatHandler env m req =
      ({ status := 400, error := some "No valid content to process" },
       readTrace env.fs req.files ++ cleanup req.files) := by
    simp [chatHandler, h1', h2, h3]
  refine ⟨hmain, fun ps => ?_⟩
  rw [hmain]
  simp only [List.mem_append]
  rintro (h | h)
  · exact invoke_notin_readTrace env.fs req.files ps h
  · exact invoke_notin_cleanup req.files ps h

/-- Witness for C7: empty prompt plus one attachment whose read fails. -/
theorem noValidContent_rejected_witness :
    chatHandler { apiKey := "k", nodeEnv := "production", fs := fun _ => none }
      (ModelOutcome.ok { textFn := some "ans", candidates := none })
      { prompt := "",
        files := [{ originalname := "a.txt", mimetype := "text/plain", path := "u/a" }] } =
      ({ status := 400, error := some "No valid content to process" },
       readTrace (fun _ => none)
          [{ originalname := "a.txt", mimetype := "text/plain", path := "u/a" }] ++
        cleanup [{ originalname := "a.txt", mimetype := "text/plain", path := "u/a" }]) :=
  (noValidContent_rejected _ _ _ (by decide) (by decide) (by decide)).1

/-- C9: whenever the handler reaches the 200 success response, the
`filesProcessed` field it returns is the total number of uploaded
attachments (`req.files.length`), regardless of how many attachments
actually contributed a part. -/
theorem filesProcessed_counts_all (env : Env) (m : ModelOutcome)
    (req : ChatRequest) (h : (chatHandler env m req).fst.status = 200) :
    (chatHandler env m req).fst.filesProcessed = some req.files.length := by
  by_cases h1 : req.prompt = "" ∧ req.files.length = 0
  · simp [chatHandler, h1] at h
  · have h1' : ¬(req.prompt = "" ∧ req.files = []) := by simpa using h1
    by_cases h2 : env.apiKey = ""
    · simp [chatHandler, h1', h2] at h
    · by_cases h3 : (userPartsFor req.prompt env.fs req.files).length = 0
      · simp [chatHandler, h1', h2, h3] at h
      · cases m with
        | ok r => simp [chatHandler, h1', h2, h3]
        | fail msg stack =>
          exfalso
          simp [chatHandler, h1', h2, h3] at h
          exact classify_status env.nodeEnv msg stack h

/-- Witness for C9: one attachment whose read fails (it contributes no part)
is still counted — `filesProcessed = 1` with zero contributing parts. -/
theorem filesProcessed_counts_all_witness :
    (chatHandler { apiKey := "k", nodeEnv := "production", fs := fun _ => none }
      (ModelOutcome.ok { textFn := some "ans", candidates := none })
      { prompt := "hi",
        files := [{ originalname := "a.txt", mimetype := "text/plain",
                    path := "u/a" }] }).fst.filesProcessed = some 1 :=
  filesProcessed_counts_all _ _ _ (by decide)

/-- C5: the catch-block error classifier maps a failure by its message
content, in source order: credential/authentication tokens (`"API key"`,
`"UNAUTHENTICATED"`) give a 500 configuration error; otherwise a safety-block
indicator (`"SAFETY"`) gives 400 with a fixed user-facing message (never the
raw remote text); otherwise a quota indicator (`"QUOTA"`,
`"RESOURCE_EXHAUSTED"`) gives 429; anything else gives a generic 500 whose
diagnostic details (the stack) appear only in a development-mode build. -/
theorem classifyError_taxonomy (nodeEnv msg stack : String) :
    ((includesStr msg "API key" || includesStr msg "UNAUTHENTICATED") = true →
      classifyError nodeEnv msg stack =
        { status := 500, error := some "Invalid API key configuration" }) ∧
    ((includesStr msg "API key" || includesStr msg "UNAUTHENTICATED") = false →
      includesStr msg "SAFETY" = true →
      classifyError nodeEnv msg stack =
        { status := 400, error := some "Content was blocked by safety filters" }) ∧
    ((includesStr msg "API key" || includesStr msg "UNAUTHENTICATED") = false →
      includesStr msg "SAFETY" = false →
      (includesStr msg "QUOTA" || includesStr msg "RESOURCE_EXHAUSTED") = true →
      classifyError nodeEnv msg stack =
        { status := 429,
          error := some "API quota exceeded. Please try again later." }) ∧
    ((includesStr msg "API key" || includesStr msg "UNAUTHENTICATED") = false →
      includesStr msg "SAFETY" = false →
      (includesStr msg "QUOTA" || includesStr msg "RESOURCE_EXHAUSTED") = false →
      classifyError nodeEnv msg stack =
        { status := 500, error := some msg,
          details := if nodeEnv = "development" then some stack else none }) := by
  refine ⟨fun h1 => ?_, fun h1 h2 => ?_, fun h1 h2 h3 => ?_, fun h1 h2 h3 => ?_⟩
  · simp [classifyError, h1]
  · simp [classifyError, h1, h2]
  · simp [classifyError, h1, h2, h3]
  · simp [classifyError, h1, h2, h3]

/-- Witness for C5: one concrete message per classifier branch. -/
theorem classifyError_taxonomy_witness :
    classifyError "production" "Invalid API key given" "st" =
      { status := 500, error := some "Invalid API key configuration" } ∧
    classifyError "production" "blocked: SAFETY violation" "st" =
      { status := 400, error := some "Content was blocked by safety filters" } ∧
    classifyError "production" "RESOURCE_EXHAUSTED: slow down" "st" =
      { status := 429,
        error := some "API quota exceeded. Please try again later." } ∧
    classifyError "development" "boom" "st" =
      { status := 500, error := some "boom", details := some "st" } := by
  refine ⟨(classifyError_taxonomy _ _ _).1 (by decide),
    (classifyError_taxonomy _ _ _).2.1 (by decide) (by decide),
    (classifyError_taxonomy _ _ _).2.2.1 (by decide) (by decide) (by decide), ?_⟩
  have h := (classifyError_taxonomy "development" "boom" "st").2.2.2
    (by decide) (by decide) (by decide)
  simpa using h

/-- Counterexample to C1 as stated: on the model-invocation-failure exit the
handler attempts removal of the attachment's storage twice, not exactly once
— the line-187 `cleanup` has already run when the `catch` block performs its
own best-effort unlink round.  Concretely, a one-attachment request whose
model call fails produces two `unlink` attempts for that attachment. -/
theorem cleanupOnce_counterexample :
    (chatHandler { apiKey := "k", nodeEnv := "production", fs := fun _ => some "data" }
      (ModelOutcome.fail "boom" "trace")
      { prompt := "hi",
        files := [{ originalname := "a.txt", mimetype := "text/plain",
                    path := "up/a" }] }).snd.count (Event.unlink "up/a") ≠ 1 := by
  decide

/-- C1 (amended): on every exit of the handler, removal of each attachment's
transient storage is attempted at least once — exactly once on success and on
every pre-invocation failure exit, and exactly twice (the second being the
tolerated best-effort `catch`-block round) when the model invocation itself
fails; removal attempts are fire-and-forget (`try/catch ` swallowed), so
their failure never changes the response. -/
theorem cleanup_attempts_amended (env : Env) (m : ModelOutcome)
    (req : ChatRequest) (hnd : (req.files.map UploadedFile.path).Nodup)
    (f : UploadedFile) (hf : f ∈ req.files) :
    (chatHandler env m req).snd.count (Event.unlink f.path) =
      (if reachesInvoke env req && isFail m then 2 else 1) := by
  have hcc := count_unlink_cleanup req.files f hnd hf
  have hrt := count_unlink_readTrace env.fs req.files f.path
  have hne : ¬(req.prompt = "" ∧ req.files = []) := by
    rintro ⟨-, hnil⟩
    rw [hnil] at hf
    simp at hf
  have hne' : ¬(req.prompt = "" ∧ req.files.length = 0) := by
    simpa using hne
  by_cases h2 : env.apiKey = ""
  · simp [chatHandler, reachesInvoke, hne, hne', h2, hcc]
  · by_cases h3 : (userPartsFor req.prompt env.fs req.files).length = 0
    · simp [chatHandler, reachesInvoke, hne, hne', h2, h3, List.count_append,
        hcc, hrt]
    · cases m with
      | ok r =>
        simp [chatHandler, reachesInvoke, isFail, hne, hne', h2, h3,
          List.count_append, hcc, hrt]
      | fail msg stack =>
        simp [chatHandler, reachesInvoke, isFail, hne, hne', h2, h3,
          List.count_append, hcc, hrt]

/-- Witness for the amended C1: a successful one-attachment request attempts
removal exactly once. -/
theorem cleanup_attempts_amended_witness :
    (chatHandler { apiKey := "k", nodeEnv := "production", fs := fun _ => some "d" }
      (ModelOutcome.ok { textFn := some "ans", candidates := none })
      { prompt := "hi",
        files := [{ originalname := "a.txt", mimetype := "text/plain",
                    path := "up/a" }] }).snd.count (Event.unlink "up/a") = 1 := by
  have h := cleanup_attempts_amended
    { apiKey := "k", nodeEnv := "production", fs := fun _ => some "d" }
    (ModelOutcome.ok { textFn := some "ans", candidates := none })
    { prompt := "hi",
      files := [{ originalname := "a.txt", mimetype := "text/plain",
                  path := "up/a" }] }
    (by decide)
    { originalname := "a.txt", mimetype := "text/plain", path := "up/a" }
    (by decide)
  simpa [isFail] using h

/-- Counterexample to C8 as stated: a request with eleven attachments is not
always rejected with 400 — when an early attachment's media type fails the
`fileFilter`, the filter's plain `Error` (not a `MulterError`) falls through
the error middleware to the generic 500 branch. -/
theorem transportLimits_counterexample :
    (({ originalname := "z.zip", mimetype := "application/zip", size := 3,
        path := "u/z" } : RawFile) ::
      List.replicate 10
        { originalname := "a.txt", mimetype := "text/plain", size := 3,
          path := "u/a" }).length > 10 ∧
    (handleChatRequest { apiKey := "k", nodeEnv := "production", fs := fun _ => none }
      (ModelOutcome.ok { textFn := some "ans", candidates := none }) "hi"
      (({ originalname := "z.zip", mimetype := "application/zip", size := 3,
          path := "u/z" } : RawFile) ::
        List.replicate 10
          { originalname := "a.txt", mimetype := "text/plain", size := 3,
            path := "u/a" })).fst.status = 500 ∧
    (handleChatRequest { apiKey := "k", nodeEnv := "production", fs := fun _ => none }
      (ModelOutcome.ok { textFn := some "ans", candidates := none }) "hi"
      (({ originalname := "z.zip", mimetype := "application/zip", size := 3,
          path := "u/z" } : RawFile) ::
        List.replicate 10
          { originalname := "a.txt", mimetype := "text/plain", size := 3,
            path := "u/a" })).fst.status ≠ 400 := by
  refine ⟨by decide, by decide, by decide⟩

lemma multer_count_limit (raw : List RawFile) :
    ∀ n, (∀ f ∈ raw, allowedTypes.contains f.mimetype = true ∧
        f.size ≤ 10485760) →
      n ≤ 10 → 10 < n + raw.length → multerProcess n raw = .limitFileCount := by
  induction raw with
  | nil =>
    intro n _ h10 hlen
    simp at hlen
    omega
  | cons f rest ih =>
    intro n hall h10 hlen
    by_cases hn : 10 ≤ n
    · have : n = 10 := by omega
      simp [multerProcess, hn]
    · have ⟨ha, hs⟩ := hall f (List.mem_cons_self f rest)
      have ha' : f.mimetype ∈ allowedTypes := by simpa using ha
      have hrec := ih (n + 1) (fun g hg => hall g (List.mem_cons_of_mem f hg))
        (by omega) (by simp at hlen ⊢; omega)
      simp [multerProcess, hn, ha', Nat.not_lt.mpr hs, hrec]

lemma multer_size_limit (raw : List RawFile) :
    ∀ n, (∀ f ∈ raw, allowedTypes.contains f.mimetype = true) →
      n + raw.length ≤ 10 → (∃ f ∈ raw, 10485760 < f.size) →
      multerProcess n raw = .limitFileSize := by
  induction raw with
  | nil =>
    intro n _ _ hex
    simp at hex
  | cons f rest ih =>
    intro n hall hlen hex
    have hn : ¬10 ≤ n := by simp at hlen; omega
    have ha' : f.mimetype ∈ allowedTypes := by
      simpa using hall f (List.mem_cons_self f rest)
    by_cases hf : 10485760 < f.size
    · simp [multerProcess, hn, ha', hf]
    · rcases hex with ⟨g, hg, hgs⟩
      rcases List.mem_cons.mp hg with rfl | hg'
      · exact absurd hgs hf
      · have hrec := ih (n + 1) (fun x hx => hall x (List.mem_cons_of_mem f hx))
          (by simp at hlen ⊢; omega) ⟨g, hg', hgs⟩
        simp [multerProcess, hn, ha', hf, hrec]

/-- C8 (amended): among requests whose attachments all pass the media-type
filter, more than ten attachments (all within the size limit) are rejected
with the 400 too-many-files response at the transport layer, and a single
oversized attachment (with at most ten attachments) is rejected with the 400
file-too-large response — in both cases with an empty trace: no attachment is
read by the handler and no model call is made.  (When an attachment's media
type is disallowed, the filter's plain `Error` takes precedence and is
surfaced as a 500 by the fallthrough error middleware.) -/
theorem transportLimits_amended (env : Env) (m : ModelOutcome) (p : String)
    (raw : List RawFile) :
    ((∀ f ∈ raw, allowedTypes.contains f.mimetype = true ∧ f.size ≤ 10485760) →
      10 < raw.length →
      handleChatRequest env m p raw =
        ({ status := 400, error := some "Too many files. Maximum is 10 files." },
         [])) ∧
    ((∀ f ∈ raw, allowedTypes.contains f.mimetype = true) → raw.length ≤ 10 →
      (∃ f ∈ raw, 10485760 < f.size) →
      handleChatRequest env m p raw =
        ({ status := 400, error := some "File too large. Maximum size is 10MB." },
         [])) := by
  constructor
  · intro hall hlen
    have h := multer_count_limit raw 0 hall (by omega) (by omega)
    simp [handleChatRequest, h]
  · intro hall hlen hex
    have h := multer_size_limit raw 0 hall (by omega) hex
    simp [handleChatRequest, h]

/-- Witness for the amended C8: eleven small text files trigger the 400
too-many-files response; one oversized text file triggers the 400
file-too-large response. -/
theorem transportLimits_amended_witness :
    handleChatRequest { apiKey := "k", nodeEnv := "production", fs := fun _ => none }
      (ModelOutcome.ok { textFn := some "ans", candidates := none }) "hi"
      (List.replicate 11
        { originalname := "a.txt", mimetype := "text/plain", size := 3,
          path := "u/a" }) =
      ({ status := 400, error := some "Too many files. Maximum is 10 files." },
       []) ∧
    handleChatRequest { apiKey := "k", nodeEnv := "production", fs := fun _ => none }
      (ModelOutcome.ok { textFn := some "ans", candidates := none }) "hi"
      [{ originalname := "big.txt", mimetype := "text/plain", size := 10485761,
         path := "u/big" }] =
      ({ status := 400, error := some "File too large. Maximum size is 10MB." },
       []) :=
  ⟨(transportLimits_amended _ _ _ _).1 (by decide) (by decide),
   (transportLimits_amended _ _ _ _).2 (by decide) (by decide) (by decide)⟩

/-- C10: the declared media type `image/jpg` is in the filter's allow-list (a
tenth entry beyond the spec's nine); a request with a file declared as
`image/jpg` is admitted by multer, and the assembler takes its image branch,
emitting an inline binary part for it. -/
theorem imageJpg_admitted (p name pth content : String) (sz : Nat)
    (fs : String → Option String) (hp : p ≠ "") (hc : fs pth = some content)
    (hsz : sz ≤ 10485760) :
    allowedTypes.contains "image/jpg" = true ∧
    multerProcess 0
        [{ originalname := name, mimetype := "image/jpg", size := sz, path := pth }] =
      .ok [{ originalname := name, mimetype := "image/jpg", path := pth }] ∧
    processFile p fs { originalname := name, mimetype := "image/jpg", path := pth } =
      [ContentPart.inlineData (base64Encode content) "image/jpg"] := by
  refine ⟨by decide, ?_, ?_⟩
  · simp +decide [multerProcess, Nat.not_lt.mpr hsz]
  · simp +decide [processFile, hc, hp]

/-- Witness for C10. -/
theorem imageJpg_admitted_witness :
    allowedTypes.contains "image/jpg" = true ∧
    multerProcess 0
        [{ originalname := "x.jpg", mimetype := "image/jpg", size := 4,
           path := "u/x" }] =
      .ok [{ originalname := "x.jpg", mimetype := "image/jpg", path := "u/x" }] ∧
    processFile "hi" (fun _ => some "img")
        { originalname := "x.jpg", mimetype := "image/jpg", path := "u/x" } =
      [ContentPart.inlineData (base64Encode "img") "image/jpg"] :=
  imageJpg_admitted "hi" "x.jpg" "u/x" "img" 4 (fun _ => some "img")
    (by decide) (by decide) (by decide)
